import Mathlib

/-!
# Verification of the xtrude tile-serving pipeline

Shallow embedding of `src/xtrude/xtrude.py` (the `TerrainMap` xarray accessor
and its helper functions `coarsen` and `reproject`), together with theorems
settling the specification claims about it.

Conventions of the embedding:
* Python / numpy floating-point values are modelled as rationals (`ℚ`).
* numpy's float modulo `a % n` is `a - n * ⌊a / n⌋` (`fmod` below) and float
  floor-division `a // n` is `(⌊a / n⌋ : ℚ)` (`ffdiv` below).
* Assigning a non-negative float into a `uint8` array truncates toward zero
  and wraps modulo 256 (`toUint8` below).
* The mutable dict `self.tiles` is an association list threaded through the
  handlers explicitly; `get_tile` additionally reports how many times it ran
  the compute pipeline (0 or 1) so that memoization is observable.
* Fallible Python code (a `raise`, or an exception escaping a handler) is
  modelled with `Except`/`Option`.
-/

namespace Xtrude

/-! ## Elevation encoding (terrain_handler, lines 155–159; decoder, line 122)

`terrain_handler` computes `data = (data + self.offset) * self.factor` and then
splits `data` into three `uint8` channels:
`rgb[:,:,2] = data % 256`, `rgb[:,:,1] = (data // 256) % 256`,
`rgb[:,:,0] = (data // (256 * 256)) % 256`.
`_start` configures the client-side decoder as
`rScaler = 65536/factor, gScaler = 256/factor, bScaler = 1/factor,
offset = -offset`, i.e. `elevation = (r*65536 + g*256 + b)/factor - offset`. -/

/-- numpy float modulo: `a % n = a - n * floor (a / n)`. -/
def fmod (a n : ℚ) : ℚ := a - n * ((⌊a / n⌋ : ℤ) : ℚ)

/-- numpy float floor-division: `a // n = floor (a / n)` as a float. -/
def ffdiv (a n : ℚ) : ℚ := ((⌊a / n⌋ : ℤ) : ℚ)

/-- Storing a float into a `uint8` numpy array: truncation toward zero,
wrapping modulo 256. -/
def toUint8 (a : ℚ) : ℤ := (if 0 ≤ a then ⌊a⌋ else -⌊-a⌋) % 256

/-- Line 155: `data = (data + self.offset) * self.factor`. -/
def scaled (factor offset e : ℚ) : ℚ := (e + offset) * factor

/-- Line 157: `rgb[:, :, 2] = data % 256`. -/
def blueChan (v : ℚ) : ℤ := toUint8 (fmod v 256)

/-- Line 158: `rgb[:, :, 1] = (data // 256) % 256`. -/
def greenChan (v : ℚ) : ℤ := toUint8 (fmod (ffdiv v 256) 256)

/-- Line 159: `rgb[:, :, 0] = (data // (256 * 256)) % 256`. -/
def redChan (v : ℚ) : ℤ := toUint8 (fmod (ffdiv v (256 * 256)) 256)

/-- Line 122: the client-side elevation decoder
`{rScaler: 65536/factor, gScaler: 256/factor, bScaler: 1/factor,
offset: -offset}` applied to the three channels. -/
def decodeElev (factor offset : ℚ) (r g b : ℤ) : ℚ :=
  (r : ℚ) * (65536 / factor) + (g : ℚ) * (256 / factor) + (b : ℚ) * (1 / factor) + (-offset)

/-- Helper: the floor of a quotient by a positive natural is the integer
division of the floor. -/
theorem floor_div_natCast (v : ℚ) (d : ℕ) (hd : 0 < d) :
    ⌊v / (d : ℚ)⌋ = ⌊v⌋ / (d : ℤ) := by
  have hd0 : ((d : ℤ) : ℚ) = (d : ℚ) := by push_cast; ring
  have hdQ : (0 : ℚ) < (d : ℚ) := by exact_mod_cast hd
  have hdZ : (0 : ℤ) < (d : ℤ) := by exact_mod_cast hd
  rw [Int.floor_eq_iff]
  constructor
  · have h1 : (⌊v⌋ / (d : ℤ)) * (d : ℤ) ≤ ⌊v⌋ := Int.ediv_mul_le ⌊v⌋ (by omega)
    have h2 : ((⌊v⌋ / (d : ℤ) * (d : ℤ) : ℤ) : ℚ) ≤ (⌊v⌋ : ℚ) := by exact_mod_cast h1
    have h3 : (⌊v⌋ : ℚ) ≤ v := Int.floor_le v
    rw [le_div_iff hdQ]
    calc ((⌊v⌋ / (d : ℤ) : ℤ) : ℚ) * (d : ℚ)
        = ((⌊v⌋ / (d : ℤ) * (d : ℤ) : ℤ) : ℚ) := by push_cast; ring
      _ ≤ (⌊v⌋ : ℚ) := h2
      _ ≤ v := h3
  · have h1 : ⌊v⌋ < (⌊v⌋ / (d : ℤ) + 1) * (d : ℤ) := Int.lt_ediv_add_one_mul_self ⌊v⌋ hdZ
    have h2 : ⌊v⌋ + 1 ≤ (⌊v⌋ / (d : ℤ) + 1) * (d : ℤ) := by omega
    have h3 : v < (⌊v⌋ : ℚ) + 1 := Int.lt_floor_add_one v
    rw [div_lt_iff hdQ]
    calc v < (⌊v⌋ : ℚ) + 1 := h3
      _ ≤ (((⌊v⌋ / (d : ℤ) + 1) * (d : ℤ) : ℤ) : ℚ) := by exact_mod_cast h2
      _ = (((⌊v⌋ / (d : ℤ) : ℤ) : ℚ) + 1) * (d : ℚ) := by push_cast; ring

/-- Helper: for a non-negative value, the blue channel is `⌊v⌋ % 256`. -/
theorem blueChan_eq (v : ℚ) (hv : 0 ≤ v) : blueChan v = ⌊v⌋ % 256 := by
  have hfd : ⌊v / (256 : ℚ)⌋ = ⌊v⌋ / 256 := by
    have := floor_div_natCast v 256 (by norm_num)
    simpa using this
  have hmod : fmod v 256 = v - ((256 * (⌊v⌋ / 256) : ℤ) : ℚ) := by
    unfold fmod
    rw [hfd]; push_cast; ring
  have hfloor : ⌊fmod v 256⌋ = ⌊v⌋ - 256 * (⌊v⌋ / 256) := by
    rw [hmod, Int.floor_sub_int]
  have hnn : 0 ≤ fmod v 256 := by
    rw [hmod]
    have h1 : ((256 * (⌊v⌋ / 256) : ℤ) : ℚ) ≤ (⌊v⌋ : ℚ) := by
      have : 256 * (⌊v⌋ / 256) ≤ ⌊v⌋ := by
        have := Int.ediv_mul_le ⌊v⌋ (b := 256) (by norm_num)
        omega
      exact_mod_cast this
    have h2 : (⌊v⌋ : ℚ) ≤ v := Int.floor_le v
    linarith
  unfold blueChan toUint8
  rw [if_pos hnn, hfloor]
  omega

/-- Helper: the channel extraction applied to an integer-valued float. -/
theorem chan_intCast (q : ℤ) (hq : 0 ≤ q) :
    toUint8 (fmod ((q : ℤ) : ℚ) 256) = q % 256 := by
  have hfd : ⌊((q : ℤ) : ℚ) / ((256 : ℕ) : ℚ)⌋ = q / 256 := by
    have := Rat.floor_intCast_div_natCast q 256
    simpa using this
  have hfd' : ⌊((q : ℤ) : ℚ) / (256 : ℚ)⌋ = q / 256 := by
    have h : ((256 : ℕ) : ℚ) = (256 : ℚ) := by norm_num
    rw [← h]; exact hfd
  have hmod : fmod ((q : ℤ) : ℚ) 256 = (((q - 256 * (q / 256)) : ℤ) : ℚ) := by
    unfold fmod
    rw [hfd']; push_cast; ring
  have hnn : 0 ≤ fmod ((q : ℤ) : ℚ) 256 := by
    rw [hmod]
    have : 0 ≤ q - 256 * (q / 256) := by
      have := Int.ediv_mul_le q (b := 256) (by norm_num)
      omega
    exact_mod_cast this
  unfold toUint8
  rw [if_pos hnn, hmod, Int.floor_intCast]
  omega

/-- Helper: for a non-negative value, the green channel is `(⌊v⌋ / 256) % 256`. -/
theorem greenChan_eq (v : ℚ) (hv : 0 ≤ v) : greenChan v = (⌊v⌋ / 256) % 256 := by
  have hfd : ⌊v / (256 : ℚ)⌋ = ⌊v⌋ / 256 := by
    have := floor_div_natCast v 256 (by norm_num)
    simpa using this
  have hq : 0 ≤ ⌊v⌋ / 256 := by
    have : 0 ≤ ⌊v⌋ := Int.floor_nonneg.mpr hv
    omega
  unfold greenChan ffdiv
  rw [hfd]
  exact chan_intCast (⌊v⌋ / 256) hq

/-- Helper: for a non-negative value, the red channel is `(⌊v⌋ / 65536) % 256`. -/
theorem redChan_eq (v : ℚ) (hv : 0 ≤ v) : redChan v = (⌊v⌋ / 65536) % 256 := by
  have hfd : ⌊v / (65536 : ℚ)⌋ = ⌊v⌋ / 65536 := by
    have := floor_div_natCast v 65536 (by norm_num)
    simpa using this
  have hq : 0 ≤ ⌊v⌋ / 65536 := by
    have : 0 ≤ ⌊v⌋ := Int.floor_nonneg.mpr hv
    omega
  unfold redChan ffdiv
  have h256 : (256 * 256 : ℚ) = (65536 : ℚ) := by norm_num
  rw [h256, hfd]
  exact chan_intCast (⌊v⌋ / 65536) hq

/-- **C1.** For every elevation `e` such that `(e + offset) * factor` lies in
`[0, 256^3)`, encoding `e` through the terrain handler's per-pixel packing
(`blue = v mod 256`, `green = (v // 256) mod 256`, `red = (v // 65536) mod 256`
with `v = (e + offset) * factor`) and decoding with the configured decoder
`elevation = (r*65536 + g*256 + b)/factor - offset` yields a value within
`1/factor` of `e`. -/
theorem terrain_roundtrip (factor offset e : ℚ) (hf : 0 < factor)
    (h0 : 0 ≤ scaled factor offset e) (h1 : scaled factor offset e < 256 ^ 3) :
    |decodeElev factor offset
        (redChan (scaled factor offset e))
        (greenChan (scaled factor offset e))
        (blueChan (scaled factor offset e)) - e| < 1 / factor := by
  set v : ℚ := scaled factor offset e with hvdef
  have hn0 : 0 ≤ ⌊v⌋ := Int.floor_nonneg.mpr h0
  have hn3 : ⌊v⌋ < 16777216 := by
    have h2 : v < ((16777216 : ℤ) : ℚ) := by
      have : ((16777216 : ℤ) : ℚ) = (256 : ℚ) ^ 3 := by norm_num
      rw [this]; exact h1
    have := Int.floor_le_floor (le_of_lt h2)
    have hf16 : ⌊((16777216 : ℤ) : ℚ)⌋ = 16777216 := Int.floor_intCast _
    by_contra hcon
    push_neg at hcon
    have : ⌊v⌋ = 16777216 ∨ 16777216 < ⌊v⌋ := by omega
    have hle : ((16777216 : ℤ) : ℚ) ≤ v := by
      calc ((16777216 : ℤ) : ℚ) ≤ (⌊v⌋ : ℚ) := by exact_mod_cast hcon
        _ ≤ v := Int.floor_le v
    linarith
  have hrecon : redChan v * 65536 + greenChan v * 256 + blueChan v = ⌊v⌋ := by
    rw [blueChan_eq v h0, greenChan_eq v h0, redChan_eq v h0]
    omega
  have hdec : decodeElev factor offset (redChan v) (greenChan v) (blueChan v)
      = (⌊v⌋ : ℚ) / factor - offset := by
    unfold decodeElev
    have : ((redChan v : ℚ) * 65536 + (greenChan v : ℚ) * 256 + (blueChan v : ℚ))
        = (⌊v⌋ : ℚ) := by exact_mod_cast congrArg (fun z : ℤ => (z : ℚ)) hrecon
    field_simp
    linarith [this]
  have he : e = v / factor - offset := by
    rw [hvdef]; unfold scaled
    field_simp
  rw [hdec, he]
  have hfl : (⌊v⌋ : ℚ) ≤ v := Int.floor_le v
  have hfl2 : v < (⌊v⌋ : ℚ) + 1 := Int.lt_floor_add_one v
  have hdiff : (⌊v⌋ : ℚ) / factor - offset - (v / factor - offset)
      = ((⌊v⌋ : ℚ) - v) / factor := by ring
  rw [hdiff, abs_div, abs_of_pos hf]
  rw [div_lt_div_iff hf hf, one_mul]
  have habs : |(⌊v⌋ : ℚ) - v| < 1 := by
    rw [abs_sub_comm, abs_of_nonneg (by linarith)]
    linarith
  nlinarith [abs_nonneg ((⌊v⌋ : ℚ) - v)]

/-- Witness for C1: with `factor = 10`, `offset = 10000`, `e = 1234.5`
(i.e. `2469/2`), the hypotheses hold and the decoded value is within
`1/10` of `e`. -/
theorem terrain_roundtrip_witness :
    (0 : ℚ) < 10 ∧ 0 ≤ scaled 10 10000 (2469 / 2) ∧
      scaled 10 10000 (2469 / 2) < 256 ^ 3 ∧
      |decodeElev 10 10000
          (redChan (scaled 10 10000 (2469 / 2)))
          (greenChan (scaled 10 10000 (2469 / 2)))
          (blueChan (scaled 10 10000 (2469 / 2))) - 2469 / 2| < 1 / 10 :=
  ⟨by norm_num, by unfold scaled; norm_num, by unfold scaled; norm_num,
    terrain_roundtrip 10 10000 (2469 / 2) (by norm_num)
      (by unfold scaled; norm_num) (by unfold scaled; norm_num)⟩

/-! ## The windowed source grid

A sub-grid of the DEM: an x coordinate axis, a y coordinate axis, and a 2-D
array of elevation samples stored as a list of rows (`ys.length` rows of
`xs.length` samples each on a well-formed grid). Models the (sliced)
`xarray.DataArray` held in `self.da`. -/

structure SubGrid where
  xs : List ℚ
  ys : List ℚ
  data : List (List ℚ)
deriving Repr, DecidableEq

/-- Number of rows — first component of `array.shape` (line 202). -/
def SubGrid.ny (g : SubGrid) : ℕ := g.data.length

/-- Number of columns — second component of `array.shape` (line 202). -/
def SubGrid.nx (g : SubGrid) : ℕ := (g.data.headD []).length

/-! ## Coarsening (function `coarsen`, lines 201–217)

`coarsen` computes `wx = nx // (tile_width * 2)` and `wy = ny // (tile_width * 2)`,
requests a block mean over the dims whose factor exceeds 1
(`array.coarsen(**dim, boundary='pad')` followed by `.mean()`), and swallows
any exception of the block-averaging step, returning the original array
(`except: pass`). The xarray block-averaging itself is external library code;
it is modelled by `blockMean` (chunking each averaged axis into windows of the
given size, padding the last partial window, i.e. averaging whatever samples
it holds), and the `try/except` is modelled by `coarsenWith`, which is
parametric in the block-averaging function and maps `none` (a raised
exception) to the unchanged input. -/

/-- Arithmetic mean of a list of samples (`nan`-free model of `.mean()`). -/
def listMean (xs : List ℚ) : ℚ := xs.sum / (xs.length : ℚ)

/-- Block-average along x with window `w`, boundary `'pad'`: every row (and
the x coordinate axis) is chunked into blocks of `w` and each block replaced
by its mean. -/
def blockMeanX (w : ℕ) (g : SubGrid) : SubGrid :=
  ⟨(g.xs.toChunks w).map listMean, g.ys,
    g.data.map fun row => (row.toChunks w).map listMean⟩

/-- Block-average along y with window `w`, boundary `'pad'`: the rows (and
the y coordinate axis) are chunked into blocks of `w`; each block of rows is
replaced by its element-wise mean. -/
def blockMeanY (w : ℕ) (g : SubGrid) : SubGrid :=
  ⟨g.xs, (g.ys.toChunks w).map listMean,
    (g.data.toChunks w).map fun blk => blk.transpose.map listMean⟩

/-- `array.coarsen(**dim, boundary='pad')` + `.mean()` for the requested dims
(line 211–214). With no requested dims this is the identity. -/
def blockMean (g : SubGrid) (dimx dimy : Option ℕ) : Option SubGrid :=
  let g1 := match dimx with
    | none => g
    | some w => blockMeanX w g
  let g2 := match dimy with
    | none => g1
    | some w => blockMeanY w g1
  some g2

/-- Lines 201–217, parametric in the block-averaging step `bm`: a `none`
result of `bm` models an exception caught by the bare `except: pass`. -/
def coarsenWith (bm : SubGrid → Option ℕ → Option ℕ → Option SubGrid)
    (array : SubGrid) (tile_w : ℕ) : SubGrid :=
  match bm array
      (if 1 < array.nx / (tile_w * 2) then some (array.nx / (tile_w * 2)) else none)
      (if 1 < array.ny / (tile_w * 2) then some (array.ny / (tile_w * 2)) else none) with
  | some a => a
  | none => array

/-- The `coarsen` function of the source (lines 201–217). -/
def coarsen (array : SubGrid) (tile_w : ℕ) : SubGrid :=
  coarsenWith blockMean array tile_w

/-- **C5.** `coarsen` computes block factors `wx = nx // (2·tileWidth)` and
`wy = ny // (2·tileWidth)`; when both are ≤ 1 (in particular whenever each
pixel dimension is ≤ `2·tileWidth`) the subgrid passes through with unchanged
shape and values, and any failure of the block-averaging step is swallowed,
returning the original subgrid — `coarsen` never fails. -/
theorem coarsen_passthrough (array : SubGrid) (tw : ℕ) :
    (array.nx / (tw * 2) ≤ 1 → array.ny / (tw * 2) ≤ 1 →
        coarsen array tw = array) ∧
    (array.nx ≤ 2 * tw → array.ny ≤ 2 * tw → coarsen array tw = array) ∧
    (∀ bm : SubGrid → Option ℕ → Option ℕ → Option SubGrid,
        bm array (if 1 < array.nx / (tw * 2) then some (array.nx / (tw * 2)) else none)
          (if 1 < array.ny / (tw * 2) then some (array.ny / (tw * 2)) else none) = none →
        coarsenWith bm array tw = array) := by
  have hdivle : ∀ n : ℕ, n ≤ 2 * tw → n / (tw * 2) ≤ 1 := by
    intro n hn
    rcases Nat.eq_zero_or_pos tw with htw | htw
    · subst htw; simpa using hn
    · have h2 : 0 < tw * 2 := by omega
      have := Nat.div_le_div_right (c := tw * 2) (by omega : n ≤ tw * 2)
      calc n / (tw * 2) ≤ (tw * 2) / (tw * 2) := this
        _ = 1 := Nat.div_self h2
  have hpass : array.nx / (tw * 2) ≤ 1 → array.ny / (tw * 2) ≤ 1 →
      coarsen array tw = array := by
    intro hx hy
    unfold coarsen coarsenWith
    rw [if_neg (by omega), if_neg (by omega)]
    simp [blockMean]
  refine ⟨hpass, ?_, ?_⟩
  · intro hx hy
    exact hpass (hdivle _ hx) (hdivle _ hy)
  · intro bm hbm
    unfold coarsenWith
    rw [hbm]

/-- Witness for C5: a 2×2 subgrid with tile width 256 passes through
`coarsen` unchanged, and a block-averaging step that fails is swallowed. -/
theorem coarsen_passthrough_witness :
    coarsen ⟨[0, 1], [1, 0], [[1, 2], [3, 4]]⟩ 256 = ⟨[0, 1], [1, 0], [[1, 2], [3, 4]]⟩ ∧
    coarsenWith (fun _ _ _ => none) ⟨[0, 1], [1, 0], [[1, 2], [3, 4]]⟩ 256
      = ⟨[0, 1], [1, 0], [[1, 2], [3, 4]]⟩ :=
  ⟨(coarsen_passthrough ⟨[0, 1], [1, 0], [[1, 2], [3, 4]]⟩ 256).2.1
      (by simp [SubGrid.nx]) (by simp [SubGrid.ny]),
    (coarsen_passthrough ⟨[0, 1], [1, 0], [[1, 2], [3, 4]]⟩ 256).2.2
      (fun _ _ _ => none) rfl⟩

/-! ## The tile cache (`get_tile`, lines 176–189)

`self.tiles` is a dict keyed by `(x, y, z)`; it is modelled as an association
list. `get_tile` is parametric in the compute pipeline (lines 180–187:
georeferencing, window extraction, coarsening, reprojection) and reports how
many times the pipeline ran (0 or 1), so memoization is observable. -/

abbrev Raster : Type := List (List ℚ)

/-- Lines 176–189: return the cached raster for `(x, y, z)` if present,
otherwise run the compute pipeline once, store, and return the result. -/
def get_tile (compute : ℤ → ℤ → ℤ → Raster) (tiles : List ((ℤ × ℤ × ℤ) × Raster))
    (x y z : ℤ) : Raster × List ((ℤ × ℤ × ℤ) × Raster) × ℕ :=
  match tiles.lookup (x, y, z) with
  | some data => (data, tiles, 0)
  | none =>
    let data := compute x y z
    (data, ((x, y, z), data) :: tiles, 1)

/-- **C2.** The first call to `get_tile` for an address runs the compute
pipeline exactly once and stores the result under the key `(x, y, z)`; every
call finding the key present returns the stored raster unchanged, leaves the
cache unchanged, and does not run the pipeline — so the second call with the
same address returns the first call's raster without recomputation. -/
theorem get_tile_memoizes (compute : ℤ → ℤ → ℤ → Raster)
    (tiles : List ((ℤ × ℤ × ℤ) × Raster)) (x y z : ℤ) :
    (tiles.lookup (x, y, z) = none →
        get_tile compute tiles x y z
            = (compute x y z, ((x, y, z), compute x y z) :: tiles, 1) ∧
          (((x, y, z), compute x y z) :: tiles).lookup (x, y, z)
            = some (compute x y z)) ∧
    (∀ d, tiles.lookup (x, y, z) = some d →
        get_tile compute tiles x y z = (d, tiles, 0)) := by
  constructor
  · intro hnone
    constructor
    · unfold get_tile
      rw [hnone]
    · simp [List.lookup]
  · intro d hsome
    unfold get_tile
    rw [hsome]

/-- Witness for C2: with a concrete pipeline stub, the first call on an empty
cache computes and stores, and the second call returns the stored raster with
the pipeline not run. -/
theorem get_tile_memoizes_witness :
    get_tile (fun _ _ _ => ([[5]] : List (List ℚ))) [] 0 0 0
        = ([[5]], [((0, 0, 0), ([[5]] : List (List ℚ)))], 1) ∧
      get_tile (fun _ _ _ => ([[5]] : List (List ℚ)))
          [((0, 0, 0), ([[5]] : List (List ℚ)))] 0 0 0
        = ([[5]], [((0, 0, 0), ([[5]] : List (List ℚ)))], 0) :=
  ⟨((get_tile_memoizes (fun _ _ _ => ([[5]] : List (List ℚ))) [] 0 0 0).1 rfl).1,
    (get_tile_memoizes (fun _ _ _ => ([[5]] : List (List ℚ)))
        [((0, 0, 0), ([[5]] : List (List ℚ)))] 0 0 0).2 [[5]] (by simp [List.lookup])⟩

/-! ## Grid normalization inside `plot` (lines 34–94)

`plot` raises when both a colormap and a surface url are configured (lines
64–68), renames the axes (line 74, raising if a named dim is absent), reverses
the y axis when any consecutive difference is ≥ 0 (lines 77–78,
`np.any(np.diff(y) >= 0)`), derives the bounding extent from axis min/max
(lines 84–87, raising on an empty axis) and the pixel spacing by dividing the
extent by `size - 1` (lines 89–90, a Python float `ZeroDivisionError` when an
axis has a single sample). -/

/-- `np.diff` on an axis: consecutive differences `y[i+1] - y[i]`. -/
def diffs (ys : List ℚ) : List ℚ := List.zipWith (fun a b => b - a) ys ys.tail

/-- Line 77: `np.any(np.diff(self.da.y.values) >= 0)`. -/
def reverseCond (ys : List ℚ) : Bool := (diffs ys).any fun d => decide (0 ≤ d)

/-- Lines 77–78: reverse the y axis when the reversal condition holds. -/
def normalize_y (ys : List ℚ) : List ℚ :=
  if reverseCond ys then ys.reverse else ys

theorem min?_reverse (l : List ℚ) : l.reverse.min? = l.min? := by
  haveI : Std.Antisymm ((· ≤ ·) : ℚ → ℚ → Prop) := ⟨fun h1 h2 => le_antisymm h1 h2⟩
  rcases h : l.min? with _ | m
  · rw [List.min?_eq_none_iff] at h
    subst h; rfl
  · rw [List.min?_eq_some_iff (fun a => le_refl a) min_choice
      (fun _ _ _ => le_min_iff)] at h ⊢
    obtain ⟨hm, hle⟩ := h
    exact ⟨by simpa using hm, fun b hb => hle b (by simpa using hb)⟩

theorem max?_reverse (l : List ℚ) : l.reverse.max? = l.max? := by
  haveI : Std.Antisymm ((· ≤ ·) : ℚ → ℚ → Prop) := ⟨fun h1 h2 => le_antisymm h1 h2⟩
  rcases h : l.max? with _ | m
  · rw [List.max?_eq_none_iff] at h
    subst h; rfl
  · rw [List.max?_eq_some_iff (fun a => le_refl a) max_choice
      (fun _ _ _ => max_le_iff)] at h ⊢
    obtain ⟨hm, hle⟩ := h
    exact ⟨by simpa using hm, fun b hb => hle b (by simpa using hb)⟩

/-- **C4.** For a strictly monotonic y axis of at least two samples,
normalization reverses the axis exactly when some consecutive difference is
≥ 0 (the two implications below split that "exactly when" along the decidable
condition); the ascending axis `[10, 20, 30]` reads `[30, 20, 10]` afterwards;
and the min/max from which `y_lower`/`y_upper` are derived are unchanged by
normalization, regardless of the original order. -/
theorem normalize_y_spec (ys : List ℚ)
    (hmono : ys.Chain' (· < ·) ∨ ys.Chain' (· > ·)) (hlen : 2 ≤ ys.length) :
    ((∃ d ∈ diffs ys, 0 ≤ d) → normalize_y ys = ys.reverse) ∧
    ((∀ d ∈ diffs ys, d < 0) → normalize_y ys = ys) ∧
    normalize_y [10, 20, 30] = [30, 20, 10] ∧
    (normalize_y ys).min? = ys.min? ∧
    (normalize_y ys).max? = ys.max? := by
  refine ⟨?_, ?_, ?_, ?_, ?_⟩
  · rintro ⟨d, hd, hd0⟩
    unfold normalize_y
    rw [if_pos]
    rw [reverseCond, List.any_eq_true]
    exact ⟨d, hd, by simpa using hd0⟩
  · intro hall
    unfold normalize_y
    rw [if_neg]
    rw [reverseCond]
    simp only [List.any_eq_true, decide_eq_true_eq, not_exists, not_and]
    rintro d hd
    simp only [not_le]
    exact hall d hd
  · norm_num [normalize_y, reverseCond, diffs]
  · unfold normalize_y
    split
    · exact min?_reverse ys
    · rfl
  · unfold normalize_y
    split
    · exact max?_reverse ys
    · rfl

/-- Witness for C4: the strictly ascending axis `[10, 20, 30]` satisfies the
hypotheses, is reversed (some consecutive difference is ≥ 0), and keeps its
min and max. -/
theorem normalize_y_spec_witness :
    ((∃ d ∈ diffs [(10 : ℚ), 20, 30], 0 ≤ d) →
        normalize_y [(10 : ℚ), 20, 30] = [(10 : ℚ), 20, 30].reverse) ∧
    ((∀ d ∈ diffs [(10 : ℚ), 20, 30], d < 0) →
        normalize_y [(10 : ℚ), 20, 30] = [(10 : ℚ), 20, 30]) ∧
    normalize_y [10, 20, 30] = [30, 20, 10] ∧
    (normalize_y [(10 : ℚ), 20, 30]).min? = [(10 : ℚ), 20, 30].min? ∧
    (normalize_y [(10 : ℚ), 20, 30]).max? = [(10 : ℚ), 20, 30].max? :=
  normalize_y_spec [10, 20, 30]
    (Or.inl (by simp [List.chain'_cons]; norm_num)) (by simp)

/-! ## `plot` (lines 34–94) -/

/-- A colormap: an opaque function from a normalized value to an RGB triple
of floats in `[0, 1]`. -/
abbrev Colormap : Type := ℚ → ℚ × ℚ × ℚ

/-- The raw `xarray.DataArray` handed to `plot`: named dimensions, their
coordinate axes, and the elevation samples (rows indexed by y). -/
structure RawGrid where
  names : List String
  axes : String → List ℚ
  values : List (List ℚ)

/-- The grid state derived by a successful `plot` (lines 74–90): the
normalized grid and the inferred extent and pixel spacing. -/
structure GridSpec where
  grid : SubGrid
  x_left : ℚ
  x_right : ℚ
  y_lower : ℚ
  y_upper : ℚ
  dx : ℚ
  dy : ℚ

/-- The exceptions `plot` can raise, in source order: the explicit
`ValueError` for a conflicting colormap/surface_url configuration (lines
64–68); the `ValueError` raised by `xarray.rename` for a missing dimension
name (line 74); the `ValueError` raised by `min()`/`max()` on an empty axis
(lines 84–87); the Python float `ZeroDivisionError` when an axis has exactly
one sample so `size - 1 = 0` (lines 89–90). -/
inductive PlotError
  | valueErrorColormapAndSurface
  | valueErrorRename
  | valueErrorEmptyAxis
  | zeroDivisionError
deriving Repr, DecidableEq

/-- Lines 34–94 of `TerrainMap.plot` (the parts that decide its
configuration and grid-normalization behavior). -/
def plot (g : RawGrid) (x_dim y_dim : String) (colormap : Option Colormap)
    (surface_url : Option String) : Except PlotError GridSpec :=
  if colormap.isSome ∧ surface_url.isSome then
    .error .valueErrorColormapAndSurface
  else if ¬ (y_dim ∈ g.names ∧ x_dim ∈ g.names) then
    .error .valueErrorRename
  else
    match (g.axes x_dim).min?, (g.axes x_dim).max?,
        (normalize_y (g.axes y_dim)).min?, (normalize_y (g.axes y_dim)).max? with
    | some xl, some xr, some yl, some yu =>
      if (g.axes x_dim).length = 1 ∨ (normalize_y (g.axes y_dim)).length = 1 then
        .error .zeroDivisionError
      else
        .ok ⟨⟨g.axes x_dim, normalize_y (g.axes y_dim),
            if reverseCond (g.axes y_dim) then g.values.reverse else g.values⟩,
          xl, xr, yl, yu,
          (xr - xl) / (((g.axes x_dim).length : ℚ) - 1),
          (yu - yl) / (((normalize_y (g.axes y_dim)).length : ℚ) - 1)⟩
    | _, _, _, _ => .error .valueErrorEmptyAxis

/-- **C9.** `plot` raises the conflicting-configuration `ValueError` exactly
when both a colormap and a surface_url are configured; it does so during
setup, before any server is started (servers are only started from the state
a successful `plot` returns), and with at most one of them configured this
error is never raised. -/
theorem plot_config_error (g : RawGrid) (x_dim y_dim : String)
    (colormap : Option Colormap) (surface_url : Option String) :
    plot g x_dim y_dim colormap surface_url = .error .valueErrorColormapAndSurface
      ↔ (colormap.isSome ∧ surface_url.isSome) := by
  unfold plot
  by_cases h : colormap.isSome ∧ surface_url.isSome
  · rw [if_pos h]
    simp [h]
  · rw [if_neg h]
    constructor
    · intro hEq
      exfalso
      revert hEq
      split
      · intro hEq
        cases hEq
      · split
        · split
          · intro hEq; cases hEq
          · intro hEq; cases hEq
        · intro hEq; cases hEq
    · intro hand
      exact absurd hand h

/-- **C8.** With a non-conflicting encoder configuration, `plot` fails with
the rename `ValueError` when either named axis is absent from the raw grid,
and fails (with the empty-axis `ValueError` or the `ZeroDivisionError` from
`extent / (size - 1)`) when an axis has fewer than 2 samples; in both cases
no `GridSpec` is produced, so no server can be started from it. -/
theorem plot_axis_errors (g : RawGrid) (x_dim y_dim : String)
    (colormap : Option Colormap) (surface_url : Option String)
    (hcfg : ¬ (colormap.isSome ∧ surface_url.isSome)) :
    ((¬ (y_dim ∈ g.names ∧ x_dim ∈ g.names)) →
        plot g x_dim y_dim colormap surface_url = .error .valueErrorRename) ∧
    (y_dim ∈ g.names → x_dim ∈ g.names →
      ((g.axes x_dim).length < 2 ∨ (g.axes y_dim).length < 2) →
        plot g x_dim y_dim colormap surface_url = .error .zeroDivisionError ∨
        plot g x_dim y_dim colormap surface_url = .error .valueErrorEmptyAxis) := by
  have hylen : (normalize_y (g.axes y_dim)).length = (g.axes y_dim).length := by
    unfold normalize_y
    split
    · exact List.length_reverse _
    · rfl
  constructor
  · intro hmiss
    unfold plot
    rw [if_neg hcfg, if_pos hmiss]
  · intro hy hx hshort
    unfold plot
    rw [if_neg hcfg, if_neg (by simp [hy, hx])]
    rcases hshort with hxs | hys
    · interval_cases hlen : (g.axes x_dim).length
      · have hnil : (g.axes x_dim) = [] := List.length_eq_zero.mp hlen
        rw [hnil]
        simp [List.min?]
      · split
        · rw [if_pos (Or.inl rfl)]
          exact Or.inl rfl
        · exact Or.inr rfl
    · have hyslen : (normalize_y (g.axes y_dim)).length < 2 := by omega
      interval_cases hlen : (normalize_y (g.axes y_dim)).length
      · have hnil : normalize_y (g.axes y_dim) = [] := List.length_eq_zero.mp hlen
        rw [hnil]
        simp [List.min?]
      · split
        · rw [if_pos (Or.inr rfl)]
          exact Or.inl rfl
        · exact Or.inr rfl

/-- Witness for C8: a grid without an `"x"` dimension makes `plot` fail with
the rename error, and a grid whose `"x"` axis has a single sample makes it
fail with the division-by-zero error. -/
theorem plot_axis_errors_witness :
    plot ⟨["y"], fun _ => [0, 1], [[1], [2]]⟩ "x" "y" none none
        = .error .valueErrorRename ∧
      (plot ⟨["x", "y"], (fun n => if n = "x" then [(0 : ℚ)] else [0, 1]), [[1], [2]]⟩
            "x" "y" none none = .error .zeroDivisionError ∨
        plot ⟨["x", "y"], (fun n => if n = "x" then [(0 : ℚ)] else [0, 1]), [[1], [2]]⟩
            "x" "y" none none = .error .valueErrorEmptyAxis) :=
  ⟨(plot_axis_errors ⟨["y"], fun _ => [0, 1], [[1], [2]]⟩ "x" "y" none none
        (by simp)).1 (by simp),
    (plot_axis_errors ⟨["x", "y"], (fun n => if n = "x" then [(0 : ℚ)] else [0, 1]),
          [[1], [2]]⟩ "x" "y" none none (by simp)).2
      (by simp) (by simp) (by simp)⟩

/-! ## Window extraction, reprojection and the tile pipeline
(`get_tile` body, lines 176–189; `reproject`, lines 220–229)

The georeferencing of a tile (`mercantile.bounds` / `mercantile.xy_bounds`,
line 181–182) and the resampling (`source.rio.reproject`, line 228) are
external library calls; the georeferencers are kept abstract (arbitrary
functions from a tile address to bounds) and the resampler is modelled from
the spec. -/

/-- Line 60: `self.tile_width = 256`. -/
def tile_width : ℕ := 256

/-- Geographic bounds of a tile (`mercantile.bounds`). -/
structure Bounds where
  west : ℚ
  south : ℚ
  east : ℚ
  north : ℚ

/-- Projected (Web-Mercator) bounds of a tile (`mercantile.xy_bounds`). -/
structure XYBounds where
  left : ℚ
  bottom : ℚ
  right : ℚ
  top : ℚ

/-- Line 185: `self.da.sel(y=slice(north + dy, south - dy),
x=slice(west - dx, east + dx))` — label-based selection of the rows whose y
coordinate lies in `[ybot, ytop]` and the columns whose x coordinate lies in
`[xleft, xright]`. -/
def extract (g : SubGrid) (ytop ybot xleft xright : ℚ) : SubGrid :=
  ⟨g.xs.filter fun v => decide (xleft ≤ v) && decide (v ≤ xright),
    g.ys.filter fun v => decide (ybot ≤ v) && decide (v ≤ ytop),
    ((g.ys.zip g.data).filter fun p => decide (ybot ≤ p.1) && decide (p.1 ≤ ytop)).map
      fun p => ((g.xs.zip p.2).filter fun q =>
        decide (xleft ≤ q.1) && decide (q.1 ≤ xright)).map Prod.snd⟩

/-- Modelled from the spec: the no-data sentinel with which the reprojection
fills output pixels that have no source coverage (the library uses `nan`;
any fixed reserved value serves in the rational model). -/
def noData : ℚ := -(10 ^ 9)

/-- Index of the largest coordinate ≤ `p` in an ascending axis. -/
def lowerIdxAsc (xs : List ℚ) (p : ℚ) : ℕ :=
  (xs.filter fun v => decide (v ≤ p)).length - 1

/-- Index of the largest-index coordinate ≥ `p` in a descending axis. -/
def lowerIdxDesc (ys : List ℚ) (p : ℚ) : ℕ :=
  (ys.filter fun v => decide (p ≤ v)).length - 1

/-- Sample value at row `i`, column `j`. -/
def cell (data : List (List ℚ)) (i j : ℕ) : ℚ := (data.getD i []).getD j 0

/-- Linear interpolation between the samples `v0` at coordinate `c0` and `v1`
at coordinate `c1`, evaluated at `p`. -/
def interp1 (c0 c1 v0 v1 p : ℚ) : ℚ :=
  if c1 = c0 then v0 else v0 + (v1 - v0) * (p - c0) / (c1 - c0)

/-- Modelled from the spec: the bilinear resampling kernel of the external
`source.rio.reproject` call (line 228) — a 4-neighbor weighted average of the
enclosing source samples, and the no-data sentinel for a point outside the
source extent (in particular everywhere when the source window is empty). -/
def sample (g : SubGrid) (px py : ℚ) : ℚ :=
  match g.xs.min?, g.xs.max?, g.ys.min?, g.ys.max? with
  | some xmin, some xmax, some ymin, some ymax =>
    if xmin ≤ px ∧ px ≤ xmax ∧ ymin ≤ py ∧ py ≤ ymax then
      interp1 (g.ys.getD (lowerIdxDesc g.ys py) 0)
        (g.ys.getD (min (lowerIdxDesc g.ys py + 1) (g.ys.length - 1)) 0)
        (interp1 (g.xs.getD (lowerIdxAsc g.xs px) 0)
          (g.xs.getD (min (lowerIdxAsc g.xs px + 1) (g.xs.length - 1)) 0)
          (cell g.data (lowerIdxDesc g.ys py) (lowerIdxAsc g.xs px))
          (cell g.data (lowerIdxDesc g.ys py)
            (min (lowerIdxAsc g.xs px + 1) (g.xs.length - 1))) px)
        (interp1 (g.xs.getD (lowerIdxAsc g.xs px) 0)
          (g.xs.getD (min (lowerIdxAsc g.xs px + 1) (g.xs.length - 1)) 0)
          (cell g.data (min (lowerIdxDesc g.ys py + 1) (g.ys.length - 1))
            (lowerIdxAsc g.xs px))
          (cell g.data (min (lowerIdxDesc g.ys py + 1) (g.ys.length - 1))
            (min (lowerIdxAsc g.xs px + 1) (g.xs.length - 1))) px)
        py
    else noData
  | _, _, _, _ => noData

/-- Lines 220–229: build the affine transform `(x_res, 0, x0, 0, -y_res, y0)`
from output pixel index to projected coordinate and resample the source onto
a `tile_w × tile_w` grid (the resampling itself is the spec-modelled
`sample`; output pixel `(i, j)` is sampled at the projected center of that
pixel under the affine transform). -/
def reproject (source : SubGrid) (x0 y0 x_res y_res : ℚ) (tile_w : ℕ) : Raster :=
  (List.range tile_w).map fun i : ℕ =>
    (List.range tile_w).map fun j : ℕ =>
      sample source (x0 + x_res * ((j : ℚ) + 1 / 2)) (y0 - y_res * ((i : ℚ) + 1 / 2))

/-- Lines 180–187: the compute pipeline of an uncached tile — georeference
the tile, derive the per-pixel resolution, extract the haloed window,
coarsen it, and reproject it onto the fixed tile grid. -/
def tile_compute (spec : GridSpec) (geoB : ℤ → ℤ → ℤ → Bounds)
    (xyB : ℤ → ℤ → ℤ → XYBounds) (x y z : ℤ) : Raster :=
  reproject
    (coarsen
      (extract spec.grid ((geoB x y z).north + spec.dy) ((geoB x y z).south - spec.dy)
        ((geoB x y z).west - spec.dx) ((geoB x y z).east + spec.dx))
      tile_width)
    (xyB x y z).left (xyB x y z).top
    (((xyB x y z).right - (xyB x y z).left) / (tile_width : ℚ))
    (((xyB x y z).top - (xyB x y z).bottom) / (tile_width : ℚ))
    tile_width


/-- A subgrid with an empty x or y axis is sampled as no-data everywhere. -/
theorem sample_empty (g : SubGrid) (h : g.xs = [] ∨ g.ys = []) (px py : ℚ) :
    sample g px py = noData := by
  rcases h with hx | hy
  · unfold sample
    rw [hx]
    rfl
  · unfold sample
    rw [hy]
    split
    · next xl xr yl yu hmin hmax hymin hymax =>
      exact absurd hymin (by simp)
    · rfl

/-- Coarsening never touches the x axis when the x block factor is ≤ 1, and
never touches the y axis when the y block factor is ≤ 1. -/
theorem coarsen_axes (g : SubGrid) (tw : ℕ) :
    (g.nx / (tw * 2) ≤ 1 → (coarsen g tw).xs = g.xs) ∧
    (g.ny / (tw * 2) ≤ 1 → (coarsen g tw).ys = g.ys) := by
  constructor
  · intro hx
    unfold coarsen coarsenWith
    rw [if_neg (by omega : ¬ 1 < g.nx / (tw * 2))]
    by_cases hy : 1 < g.ny / (tw * 2)
    · rw [if_pos hy]
      rfl
    · rw [if_neg hy]
      rfl
  · intro hy
    unfold coarsen coarsenWith
    rw [if_neg (by omega : ¬ 1 < g.ny / (tw * 2))]
    by_cases hx : 1 < g.nx / (tw * 2)
    · rw [if_pos hx]
      rfl
    · rw [if_neg hx]
      rfl

theorem extract_xs_eq (g : SubGrid) (yt yb xl xr : ℚ) :
    (extract g yt yb xl xr).xs
      = g.xs.filter fun v => decide (xl ≤ v) && decide (v ≤ xr) := rfl

theorem extract_ys_eq (g : SubGrid) (yt yb xl xr : ℚ) :
    (extract g yt yb xl xr).ys
      = g.ys.filter fun v => decide (yb ≤ v) && decide (v ≤ yt) := rfl

theorem extract_data_eq (g : SubGrid) (yt yb xl xr : ℚ) :
    (extract g yt yb xl xr).data
      = ((g.ys.zip g.data).filter fun p =>
          decide (yb ≤ p.1) && decide (p.1 ≤ yt)).map
        fun p => ((g.xs.zip p.2).filter fun q =>
          decide (xl ≤ q.1) && decide (q.1 ≤ xr)).map Prod.snd := rfl

/-- An extraction with an empty y axis has no rows. -/
theorem extract_ys_nil_ny (g : SubGrid) (yt yb xl xr : ℚ)
    (h : (extract g yt yb xl xr).ys = []) : (extract g yt yb xl xr).ny = 0 := by
  rw [extract_ys_eq] at h
  have hrows : ((g.ys.zip g.data).filter fun p =>
      decide (yb ≤ p.1) && decide (p.1 ≤ yt)) = [] := by
    rw [List.filter_eq_nil_iff]
    intro a ha
    exact List.filter_eq_nil_iff.mp h a.1 (List.of_mem_zip ha).1
  unfold SubGrid.ny
  rw [extract_data_eq, hrows]
  rfl

/-- An extraction with an empty x axis has empty rows, hence zero width. -/
theorem extract_xs_nil_nx (g : SubGrid) (yt yb xl xr : ℚ)
    (h : (extract g yt yb xl xr).xs = []) : (extract g yt yb xl xr).nx = 0 := by
  rw [extract_xs_eq] at h
  have hall : ∀ v ∈ g.xs, ¬((decide (xl ≤ v) && decide (v ≤ xr)) = true) :=
    List.filter_eq_nil_iff.mp h
  have hrow : ∀ row : List ℚ, ((g.xs.zip row).filter fun q =>
      decide (xl ≤ q.1) && decide (q.1 ≤ xr)) = [] := by
    intro row
    rw [List.filter_eq_nil_iff]
    intro a ha
    exact hall a.1 (List.of_mem_zip ha).1
  unfold SubGrid.nx
  rw [extract_data_eq]
  rcases hcase : ((g.ys.zip g.data).filter fun p =>
      decide (yb ≤ p.1) && decide (p.1 ≤ yt)) with _ | ⟨hd, tl⟩
  · rw [hcase]
    rfl
  · rw [hcase]
    simp only [List.map_cons, List.headD_cons, hrow hd.2, List.map_nil,
      List.length_nil]

/-- The reprojected raster always has `tile_w` rows of `tile_w` samples. -/
theorem reproject_shape (src : SubGrid) (x0 y0 xr yr : ℚ) (tw : ℕ) :
    (reproject src x0 y0 xr yr tw).length = tw ∧
      ∀ row ∈ reproject src x0 y0 xr yr tw, row.length = tw := by
  constructor
  · unfold reproject
    rw [List.length_map, List.length_range]
  · intro row hrow
    unfold reproject at hrow
    obtain ⟨i, _, hrfl⟩ := List.mem_map.mp hrow
    rw [← hrfl, List.length_map, List.length_range]

/-- Reprojecting a source with an empty axis yields only no-data samples. -/
theorem reproject_empty (src : SubGrid) (hsrc : src.xs = [] ∨ src.ys = [])
    (x0 y0 xr yr : ℚ) (tw : ℕ) :
    ∀ row ∈ reproject src x0 y0 xr yr tw, ∀ p ∈ row, p = noData := by
  intro row hrow p hp
  unfold reproject at hrow
  obtain ⟨i, _, hrfl⟩ := List.mem_map.mp hrow
  rw [← hrfl] at hp
  obtain ⟨j, _, hprfl⟩ := List.mem_map.mp hp
  rw [← hprfl]
  exact sample_empty src hsrc _ _

/-- **C3.** For a tile whose haloed geographic window misses every source
coordinate (on the y axis or on the x axis), the window extraction yields an
empty subgrid, and `get_tile` still produces a full `tile_width × tile_width`
tile every pixel of which is the no-data sentinel — the pipeline does not
fail. -/
theorem empty_window_tile (spec : GridSpec) (geoB : ℤ → ℤ → ℤ → Bounds)
    (xyB : ℤ → ℤ → ℤ → XYBounds) (tiles : List ((ℤ × ℤ × ℤ) × Raster)) (x y z : ℤ)
    (hfresh : tiles.lookup (x, y, z) = none)
    (houtside :
      (∀ v ∈ spec.grid.ys,
          v < (geoB x y z).south - spec.dy ∨ (geoB x y z).north + spec.dy < v) ∨
      (∀ v ∈ spec.grid.xs,
          v < (geoB x y z).west - spec.dx ∨ (geoB x y z).east + spec.dx < v)) :
    ((extract spec.grid ((geoB x y z).north + spec.dy) ((geoB x y z).south - spec.dy)
        ((geoB x y z).west - spec.dx) ((geoB x y z).east + spec.dx)).ys = [] ∨
      (extract spec.grid ((geoB x y z).north + spec.dy) ((geoB x y z).south - spec.dy)
        ((geoB x y z).west - spec.dx) ((geoB x y z).east + spec.dx)).xs = []) ∧
    (get_tile (tile_compute spec geoB xyB) tiles x y z).1.length = tile_width ∧
    ∀ row ∈ (get_tile (tile_compute spec geoB xyB) tiles x y z).1,
      row.length = tile_width ∧ ∀ p ∈ row, p = noData := by
  set yt : ℚ := (geoB x y z).north + spec.dy with hyt
  set yb : ℚ := (geoB x y z).south - spec.dy with hyb
  set xlo : ℚ := (geoB x y z).west - spec.dx with hxlo
  set xhi : ℚ := (geoB x y z).east + spec.dx with hxhi
  set ex : SubGrid := extract spec.grid yt yb xlo xhi with hex
  have hempty : ex.ys = [] ∨ ex.xs = [] := by
    rcases houtside with hys | hxs
    · left
      rw [hex, extract_ys_eq, List.filter_eq_nil_iff]
      intro v hv
      rcases hys v hv with h | h <;>
        · simp only [Bool.and_eq_true, decide_eq_true_eq, not_and]
          intro hc
          linarith
    · right
      rw [hex, extract_xs_eq, List.filter_eq_nil_iff]
      intro v hv
      rcases hxs v hv with h | h <;>
        · simp only [Bool.and_eq_true, decide_eq_true_eq, not_and]
          intro hc
          linarith
  have hcoarse : (coarsen ex tile_width).ys = [] ∨ (coarsen ex tile_width).xs = [] := by
    rcases hempty with hy | hx
    · left
      have hny : ex.ny = 0 := by
        rw [hex] at hy ⊢
        exact extract_ys_nil_ny spec.grid yt yb xlo xhi hy
      rw [(coarsen_axes ex tile_width).2 (by rw [hny]; simp)]
      exact hy
    · right
      have hnx : ex.nx = 0 := by
        rw [hex] at hx ⊢
        exact extract_xs_nil_nx spec.grid yt yb xlo xhi hx
      rw [(coarsen_axes ex tile_width).1 (by rw [hnx]; simp)]
      exact hx
  have hsrc : (coarsen ex tile_width).xs = [] ∨ (coarsen ex tile_width).ys = [] :=
    hcoarse.symm
  have hget : (get_tile (tile_compute spec geoB xyB) tiles x y z).1
      = tile_compute spec geoB xyB x y z := by
    unfold get_tile
    rw [hfresh]
  have hcompute : tile_compute spec geoB xyB x y z
      = reproject (coarsen ex tile_width) (xyB x y z).left (xyB x y z).top
          (((xyB x y z).right - (xyB x y z).left) / (tile_width : ℚ))
          (((xyB x y z).top - (xyB x y z).bottom) / (tile_width : ℚ)) tile_width := by
    rw [hex, hyt, hyb, hxlo, hxhi]
    rfl
  refine ⟨hempty, ?_, ?_⟩
  · rw [hget, hcompute]
    exact (reproject_shape _ _ _ _ _ _).1
  · intro row hrow
    rw [hget, hcompute] at hrow
    exact ⟨(reproject_shape _ _ _ _ _ _).2 row hrow,
      reproject_empty _ hsrc _ _ _ _ _ row hrow⟩

/-- Witness for C3: a concrete 2×2 grid whose y coordinates all lie below the
requested window; the extraction is empty and the computed tile is a full
256×256 raster of no-data values. -/
theorem empty_window_tile_witness :
    ((extract (⟨[0, 1], [1, 0], [[1, 2], [3, 4]]⟩ : SubGrid) (60 + 0) (50 - 0)
        (100 - 0) (110 + 0)).ys = [] ∨
      (extract (⟨[0, 1], [1, 0], [[1, 2], [3, 4]]⟩ : SubGrid) (60 + 0) (50 - 0)
        (100 - 0) (110 + 0)).xs = []) ∧
    (get_tile
        (tile_compute ⟨⟨[0, 1], [1, 0], [[1, 2], [3, 4]]⟩, 0, 1, 0, 1, 0, 0⟩
          (fun _ _ _ => ⟨100, 50, 110, 60⟩) (fun _ _ _ => ⟨0, 0, 1, 1⟩))
        [] 0 0 0).1.length = tile_width ∧
    ∀ row ∈ (get_tile
        (tile_compute ⟨⟨[0, 1], [1, 0], [[1, 2], [3, 4]]⟩, 0, 1, 0, 1, 0, 0⟩
          (fun _ _ _ => ⟨100, 50, 110, 60⟩) (fun _ _ _ => ⟨0, 0, 1, 1⟩))
        [] 0 0 0).1,
      row.length = tile_width ∧ ∀ p ∈ row, p = noData :=
  empty_window_tile ⟨⟨[0, 1], [1, 0], [[1, 2], [3, 4]]⟩, 0, 1, 0, 1, 0, 0⟩
    (fun _ _ _ => ⟨100, 50, 110, 60⟩) (fun _ _ _ => ⟨0, 0, 1, 1⟩) [] 0 0 0 rfl
    (Or.inl (by intro v hv; left; simp at hv; rcases hv with rfl | rfl <;> norm_num))


/-! ## The HTTP handlers (lines 129–163)

Both handlers take the three path segments of `GET /{z}/{x}/{y}.png` (already
split on `/`, line 131/149; modelled as character lists), parse them with
Python `int()` (raising `ValueError` on failure, which escapes the handler —
no response is constructed), strip `".png"` from the y segment (`y[:-4]`),
fetch the tile through `get_tile`, encode it, and answer with status 200.
Neither handler contains any validation or any non-200 response. -/

/-- Python `int()` on a run of decimal digits; `none` models `ValueError`. -/
def parseDigits (cs : List Char) : Option ℕ :=
  if cs = [] then none
  else if cs.all (fun c => c.isDigit) then
    some (cs.foldl (fun n c => n * 10 + (c.toNat - Char.toNat (Char.ofNat 48))) 0)
  else none

/-- Python `int()` on a decimal string with an optional leading minus sign
(note: negative integers parse fine — the source performs no sign check). -/
def parseInt (cs : List Char) : Option ℤ :=
  match cs with
  | '-' :: rest => (parseDigits rest).map fun n => -(n : ℤ)
  | _ => (parseDigits cs).map fun n => (n : ℤ)

/-- Lines 131–134 / 149–152: parse the `z`, `x`, `y` path segments, stripping
the trailing `".png"` from the y segment. -/
def parse_zxy (zs xs ys : List Char) : Option (ℤ × ℤ × ℤ) :=
  match parseInt zs, parseInt xs, parseInt (ys.take (ys.length - 4)) with
  | some z, some x, some y => some (z, x, y)
  | _, _, _ => none

/-- An HTTP response as the handlers build it: a status code and the RGB
pixel array that is PNG-encoded into the body (the PNG byte serialization is
external PIL code and is not modelled). Both handlers only ever construct
`status = 200` (lines 145 and 163). -/
structure Response where
  status : ℕ
  body : List (List (ℤ × ℤ × ℤ))

/-- Extract the status of a handler outcome (`none`: an exception escaped the
handler and the framework, not the handler, chooses the 500 answer). -/
def respStatus (r : Except Unit Response) : Option ℕ :=
  match r with
  | .ok resp => some resp.status
  | .error _ => none

/-- Lines 155–159 applied to one raster sample. -/
def encodePixel (factor offset e : ℚ) : ℤ × ℤ × ℤ :=
  (redChan (scaled factor offset e), greenChan (scaled factor offset e),
    blueChan (scaled factor offset e))

/-- Lines 155–160: the per-pixel terrain-RGB assembly over the whole raster. -/
def encodeImage (factor offset : ℚ) (data : Raster) : List (List (ℤ × ℤ × ℤ)) :=
  data.map fun row => row.map (encodePixel factor offset)

/-- Lines 147–163: the elevation tile endpoint. A parse failure is a raised
`ValueError` (`.error`), constructed responses always carry status 200. -/
def terrain_handler (spec : GridSpec) (geoB : ℤ → ℤ → ℤ → Bounds)
    (xyB : ℤ → ℤ → ℤ → XYBounds) (factor offset : ℚ)
    (tiles : List ((ℤ × ℤ × ℤ) × Raster)) (zs xs ys : List Char) :
    Except Unit Response × List ((ℤ × ℤ × ℤ) × Raster) :=
  match parse_zxy zs xs ys with
  | none => (.error (), tiles)
  | some (z, x, y) =>
    let r := get_tile (tile_compute spec geoB xyB) tiles x y z
    (.ok ⟨200, encodeImage factor offset r.1⟩, r.2.1)

/-- The mutable state the surface handler reads and writes: `self.vmin`,
`self.vmax` (`None` until first derived) and the shared tile cache. -/
structure SurfaceState where
  vmin : Option ℚ
  vmax : Option ℚ
  tiles : List ((ℤ × ℤ × ℤ) × Raster)

/-- Line 137: `self.da.min().values` — global minimum of the source grid. -/
def gridMin (g : SubGrid) : ℚ := (g.data.join.min?).getD 0

/-- Line 139: `self.da.max().values` — global maximum of the source grid. -/
def gridMax (g : SubGrid) : ℚ := (g.data.join.max?).getD 0

/-- Lines 129–145: the surface tile endpoint. `vmin`/`vmax` are derived from
the grid's global min/max when unset and stored (lines 136–139); the tile is
normalized by `(vmax - vmin)` — with no degeneracy check: in numpy a zero
divisor yields `inf`/`nan` values with only a warning, never an exception
(the rational model returns 0 there); the colormap output is scaled by 255
and truncated to bytes; the response status is always 200. -/
def surface_handler (spec : GridSpec) (colormap : Colormap)
    (geoB : ℤ → ℤ → ℤ → Bounds) (xyB : ℤ → ℤ → ℤ → XYBounds)
    (st : SurfaceState) (zs xs ys : List Char) :
    Except Unit Response × SurfaceState :=
  match parse_zxy zs xs ys with
  | none => (.error (), st)
  | some (z, x, y) =>
    let vmin := st.vmin.getD (gridMin spec.grid)
    let vmax := st.vmax.getD (gridMax spec.grid)
    let r := get_tile (tile_compute spec geoB xyB) st.tiles x y z
    (.ok ⟨200, r.1.map fun row => row.map fun e =>
        (toUint8 ((colormap ((e - vmin) / (vmax - vmin))).1 * 255),
          toUint8 ((colormap ((e - vmin) / (vmax - vmin))).2.1 * 255),
          toUint8 ((colormap ((e - vmin) / (vmax - vmin))).2.2 * 255))⟩,
      ⟨some vmin, some vmax, r.2.1⟩)


/-- **C10.** The raster computed by the tile pipeline — and hence the raster
`get_tile` returns and stores — always has shape `tile_width × tile_width`
(256 × 256), because `reproject` resamples onto a fixed
`(tile_width, tile_width)` output grid; consequently the terrain handler's
assembly of a fixed 256 × 256 RGB image from any cached tile is well-defined
(the encoded image has exactly 256 rows of 256 pixels), regardless of the
source grid's size or the tile's coverage. -/
theorem tile_raster_shape (spec : GridSpec) (geoB : ℤ → ℤ → ℤ → Bounds)
    (xyB : ℤ → ℤ → ℤ → XYBounds) (tiles : List ((ℤ × ℤ × ℤ) × Raster))
    (x y z : ℤ) (factor offset : ℚ)
    (hcache : ∀ (k : ℤ × ℤ × ℤ) (d : Raster), tiles.lookup k = some d →
        d.length = tile_width ∧ ∀ row ∈ d, row.length = tile_width) :
    ((tile_compute spec geoB xyB x y z).length = tile_width ∧
        ∀ row ∈ tile_compute spec geoB xyB x y z, row.length = tile_width) ∧
    ((get_tile (tile_compute spec geoB xyB) tiles x y z).1.length = tile_width ∧
        ∀ row ∈ (get_tile (tile_compute spec geoB xyB) tiles x y z).1,
          row.length = tile_width) ∧
    (∀ (k : ℤ × ℤ × ℤ) (d : Raster),
        (get_tile (tile_compute spec geoB xyB) tiles x y z).2.1.lookup k = some d →
        d.length = tile_width ∧ ∀ row ∈ d, row.length = tile_width) ∧
    ((encodeImage factor offset
          (get_tile (tile_compute spec geoB xyB) tiles x y z).1).length = tile_width ∧
      ∀ row ∈ encodeImage factor offset
          (get_tile (tile_compute spec geoB xyB) tiles x y z).1,
        row.length = tile_width) := by
  have hcompute : (tile_compute spec geoB xyB x y z).length = tile_width ∧
      ∀ row ∈ tile_compute spec geoB xyB x y z, row.length = tile_width := by
    unfold tile_compute
    exact reproject_shape _ _ _ _ _ _
  have hget : (get_tile (tile_compute spec geoB xyB) tiles x y z).1.length = tile_width ∧
      ∀ row ∈ (get_tile (tile_compute spec geoB xyB) tiles x y z).1,
        row.length = tile_width := by
    unfold get_tile
    rcases hcase : tiles.lookup (x, y, z) with _ | d
    · exact hcompute
    · exact hcache _ d hcase
  have hstore : ∀ (k : ℤ × ℤ × ℤ) (d : Raster),
      (get_tile (tile_compute spec geoB xyB) tiles x y z).2.1.lookup k = some d →
      d.length = tile_width ∧ ∀ row ∈ d, row.length = tile_width := by
    unfold get_tile
    rcases hcase : tiles.lookup (x, y, z) with _ | d
    · intro k d hl
      simp only [List.lookup] at hl
      rcases hk : k == (x, y, z) with _ | _
      · rw [hk] at hl
        exact hcache k d hl
      · rw [hk] at hl
        simp only [Option.some.injEq] at hl
        rw [← hl]
        exact hcompute
    · exact hcache
  refine ⟨hcompute, hget, hstore, ?_⟩
  constructor
  · unfold encodeImage
    rw [List.length_map]
    exact hget.1
  · intro row hrow
    unfold encodeImage at hrow
    obtain ⟨r0, hr0, hrfl⟩ := List.mem_map.mp hrow
    rw [← hrfl, List.length_map]
    exact hget.2 r0 hr0

/-- Witness for C10: on an empty cache with a concrete grid and tile address,
the computed, returned, stored and encoded rasters all have 256 rows of 256
entries. -/
theorem tile_raster_shape_witness :
    ((tile_compute ⟨⟨[0, 1], [1, 0], [[1, 2], [3, 4]]⟩, 0, 1, 0, 1, 1, 1⟩
          (fun _ _ _ => ⟨0, 0, 1, 1⟩) (fun _ _ _ => ⟨0, 0, 1, 1⟩) 0 0 0).length = tile_width ∧
        ∀ row ∈ tile_compute ⟨⟨[0, 1], [1, 0], [[1, 2], [3, 4]]⟩, 0, 1, 0, 1, 1, 1⟩
          (fun _ _ _ => ⟨0, 0, 1, 1⟩) (fun _ _ _ => ⟨0, 0, 1, 1⟩) 0 0 0,
          row.length = tile_width) ∧
    ((get_tile (tile_compute ⟨⟨[0, 1], [1, 0], [[1, 2], [3, 4]]⟩, 0, 1, 0, 1, 1, 1⟩
          (fun _ _ _ => ⟨0, 0, 1, 1⟩) (fun _ _ _ => ⟨0, 0, 1, 1⟩)) [] 0 0 0).1.length = tile_width ∧
        ∀ row ∈ (get_tile (tile_compute ⟨⟨[0, 1], [1, 0], [[1, 2], [3, 4]]⟩, 0, 1, 0, 1, 1, 1⟩
          (fun _ _ _ => ⟨0, 0, 1, 1⟩) (fun _ _ _ => ⟨0, 0, 1, 1⟩)) [] 0 0 0).1,
          row.length = tile_width) ∧
    (∀ (k : ℤ × ℤ × ℤ) (d : Raster),
        (get_tile (tile_compute ⟨⟨[0, 1], [1, 0], [[1, 2], [3, 4]]⟩, 0, 1, 0, 1, 1, 1⟩
          (fun _ _ _ => ⟨0, 0, 1, 1⟩) (fun _ _ _ => ⟨0, 0, 1, 1⟩)) [] 0 0 0).2.1.lookup k = some d →
        d.length = tile_width ∧ ∀ row ∈ d, row.length = tile_width) ∧
    ((encodeImage 10 10000
          (get_tile (tile_compute ⟨⟨[0, 1], [1, 0], [[1, 2], [3, 4]]⟩, 0, 1, 0, 1, 1, 1⟩
            (fun _ _ _ => ⟨0, 0, 1, 1⟩) (fun _ _ _ => ⟨0, 0, 1, 1⟩)) [] 0 0 0).1).length = tile_width ∧
      ∀ row ∈ encodeImage 10 10000
          (get_tile (tile_compute ⟨⟨[0, 1], [1, 0], [[1, 2], [3, 4]]⟩, 0, 1, 0, 1, 1, 1⟩
            (fun _ _ _ => ⟨0, 0, 1, 1⟩) (fun _ _ _ => ⟨0, 0, 1, 1⟩)) [] 0 0 0).1,
        row.length = tile_width) :=
  tile_raster_shape ⟨⟨[0, 1], [1, 0], [[1, 2], [3, 4]]⟩, 0, 1, 0, 1, 1, 1⟩
    (fun _ _ _ => ⟨0, 0, 1, 1⟩) (fun _ _ _ => ⟨0, 0, 1, 1⟩) [] 0 0 0 10 10000
    (fun k d hl => by cases hl)

/-- **C6 (amended).** A request to either endpoint whose path segments do not
parse as integers makes the handler raise before touching anything: no
response is constructed (the framework, outside this code, answers 500 — not
a 4xx), the tile cache and the vmin/vmax state are unchanged, and no other
request is affected; moreover the handlers only ever construct responses with
status 200, so neither endpoint ever answers with a 4xx of its own. -/
theorem malformed_request (spec : GridSpec) (cm : Colormap)
    (geoB : ℤ → ℤ → ℤ → Bounds) (xyB : ℤ → ℤ → ℤ → XYBounds)
    (factor offset : ℚ) (tiles : List ((ℤ × ℤ × ℤ) × Raster)) (st : SurfaceState)
    (zs xs ys : List Char) (hbad : parse_zxy zs xs ys = none) :
    terrain_handler spec geoB xyB factor offset tiles zs xs ys = (.error (), tiles) ∧
    surface_handler spec cm geoB xyB st zs xs ys = (.error (), st) ∧
    (∀ (tiles' : List ((ℤ × ℤ × ℤ) × Raster)) (zs' xs' ys' : List Char) (r : Response),
        (terrain_handler spec geoB xyB factor offset tiles' zs' xs' ys').1 = .ok r →
        r.status = 200) ∧
    (∀ (st' : SurfaceState) (zs' xs' ys' : List Char) (r : Response),
        (surface_handler spec cm geoB xyB st' zs' xs' ys').1 = .ok r →
        r.status = 200) := by
  refine ⟨?_, ?_, ?_, ?_⟩
  · unfold terrain_handler
    rw [hbad]
  · unfold surface_handler
    rw [hbad]
  · intro tiles' zs' xs' ys' r hr
    unfold terrain_handler at hr
    rcases hp : parse_zxy zs' xs' ys' with _ | ⟨z, x, y⟩
    · rw [hp] at hr
      cases hr
    · rw [hp] at hr
      simp only [Except.ok.injEq] at hr
      rw [← hr]
  · intro st' zs' xs' ys' r hr
    unfold surface_handler at hr
    rcases hp : parse_zxy zs' xs' ys' with _ | ⟨z, x, y⟩
    · rw [hp] at hr
      cases hr
    · rw [hp] at hr
      simp only [Except.ok.injEq] at hr
      rw [← hr]

/-- Witness for C6 (amended): the parse of `("a", "0", "0.png")` fails, both
handlers raise with the cache and state untouched, and every response either
handler can construct has status 200. -/
theorem malformed_request_witness :
    terrain_handler ⟨⟨[0, 1], [1, 0], [[1, 2], [3, 4]]⟩, 0, 1, 0, 1, 1, 1⟩
        (fun _ _ _ => ⟨0, 0, 1, 1⟩) (fun _ _ _ => ⟨0, 0, 1, 1⟩) 10 10000 []
        [Char.ofNat 97] [Char.ofNat 48]
        [Char.ofNat 48, Char.ofNat 46, Char.ofNat 112, Char.ofNat 110, Char.ofNat 103]
      = (.error (), []) ∧
    surface_handler ⟨⟨[0, 1], [1, 0], [[1, 2], [3, 4]]⟩, 0, 1, 0, 1, 1, 1⟩
        (fun t => (t, t, t)) (fun _ _ _ => ⟨0, 0, 1, 1⟩) (fun _ _ _ => ⟨0, 0, 1, 1⟩)
        ⟨none, none, []⟩ [Char.ofNat 97] [Char.ofNat 48]
        [Char.ofNat 48, Char.ofNat 46, Char.ofNat 112, Char.ofNat 110, Char.ofNat 103]
      = (.error (), ⟨none, none, []⟩) ∧
    (∀ (tiles' : List ((ℤ × ℤ × ℤ) × Raster)) (zs' xs' ys' : List Char) (r : Response),
        (terrain_handler ⟨⟨[0, 1], [1, 0], [[1, 2], [3, 4]]⟩, 0, 1, 0, 1, 1, 1⟩
            (fun _ _ _ => ⟨0, 0, 1, 1⟩) (fun _ _ _ => ⟨0, 0, 1, 1⟩) 10 10000
            tiles' zs' xs' ys').1 = .ok r →
        r.status = 200) ∧
    (∀ (st' : SurfaceState) (zs' xs' ys' : List Char) (r : Response),
        (surface_handler ⟨⟨[0, 1], [1, 0], [[1, 2], [3, 4]]⟩, 0, 1, 0, 1, 1, 1⟩
            (fun t => (t, t, t)) (fun _ _ _ => ⟨0, 0, 1, 1⟩) (fun _ _ _ => ⟨0, 0, 1, 1⟩)
            st' zs' xs' ys').1 = .ok r →
        r.status = 200) :=
  malformed_request ⟨⟨[0, 1], [1, 0], [[1, 2], [3, 4]]⟩, 0, 1, 0, 1, 1, 1⟩
    (fun t => (t, t, t)) (fun _ _ _ => ⟨0, 0, 1, 1⟩) (fun _ _ _ => ⟨0, 0, 1, 1⟩)
    10 10000 [] ⟨none, none, []⟩ [Char.ofNat 97] [Char.ofNat 48]
    [Char.ofNat 48, Char.ofNat 46, Char.ofNat 112, Char.ofNat 110, Char.ofNat 103]
    rfl

/-- Counterexample for C6 as stated: the request `GET /a/0/0.png` (segments
`"a"`, `"0"`, `"0.png"`) reaches the handlers, the `int()` call raises, no
response is produced by either handler (so no 4xx is sent by this code — the
framework's uncaught-exception answer is a 500), and the cache is unchanged. -/
theorem malformed_request_counterexample :
    terrain_handler ⟨⟨[0, 1], [1, 0], [[1, 2], [3, 4]]⟩, 0, 1, 0, 1, 1, 1⟩
        (fun _ _ _ => ⟨0, 0, 1, 1⟩) (fun _ _ _ => ⟨0, 0, 1, 1⟩) 10 10000 []
        [Char.ofNat 97] [Char.ofNat 48]
        [Char.ofNat 48, Char.ofNat 46, Char.ofNat 112, Char.ofNat 110, Char.ofNat 103]
      = (.error (), []) ∧
    surface_handler ⟨⟨[0, 1], [1, 0], [[1, 2], [3, 4]]⟩, 0, 1, 0, 1, 1, 1⟩
        (fun t => (t, t, t)) (fun _ _ _ => ⟨0, 0, 1, 1⟩) (fun _ _ _ => ⟨0, 0, 1, 1⟩)
        ⟨none, none, []⟩ [Char.ofNat 97] [Char.ofNat 48]
        [Char.ofNat 48, Char.ofNat 46, Char.ofNat 112, Char.ofNat 110, Char.ofNat 103]
      = (.error (), ⟨none, none, []⟩) ∧
    ¬ ∃ r : Response,
        (terrain_handler ⟨⟨[0, 1], [1, 0], [[1, 2], [3, 4]]⟩, 0, 1, 0, 1, 1, 1⟩
            (fun _ _ _ => ⟨0, 0, 1, 1⟩) (fun _ _ _ => ⟨0, 0, 1, 1⟩) 10 10000 []
            [Char.ofNat 97] [Char.ofNat 48]
            [Char.ofNat 48, Char.ofNat 46, Char.ofNat 112, Char.ofNat 110, Char.ofNat 103]).1
          = .ok r ∧ 400 ≤ r.status ∧ r.status < 500 := by
  refine ⟨rfl, rfl, ?_⟩
  rintro ⟨r, hr, h4, h5⟩
  have h0 : (terrain_handler ⟨⟨[0, 1], [1, 0], [[1, 2], [3, 4]]⟩, 0, 1, 0, 1, 1, 1⟩
      (fun _ _ _ => ⟨0, 0, 1, 1⟩) (fun _ _ _ => ⟨0, 0, 1, 1⟩) 10 10000 []
      [Char.ofNat 97] [Char.ofNat 48]
      [Char.ofNat 48, Char.ofNat 46, Char.ofNat 112, Char.ofNat 110, Char.ofNat 103]).1
      = Except.error () := rfl
  rw [h0] at hr
  cases hr

/-- **C7 (amended).** On a successfully parsed surface request, an unset
`vmin` (resp. `vmax`) is computed from the global minimum (resp. maximum) of
the entire source grid and stored for subsequent requests, while an already
set value is kept unchanged; and the handler always returns a status-200
image — in particular when `vmin = vmax` nothing fails: the source has no
degeneracy check (numpy division by zero only warns). -/
theorem surface_vminmax (spec : GridSpec) (cm : Colormap)
    (geoB : ℤ → ℤ → ℤ → Bounds) (xyB : ℤ → ℤ → ℤ → XYBounds)
    (st : SurfaceState) (zs xs ys : List Char) (z x y : ℤ)
    (hparse : parse_zxy zs xs ys = some (z, x, y)) :
    (st.vmin = none →
        (surface_handler spec cm geoB xyB st zs xs ys).2.vmin
          = some (gridMin spec.grid)) ∧
    (st.vmax = none →
        (surface_handler spec cm geoB xyB st zs xs ys).2.vmax
          = some (gridMax spec.grid)) ∧
    (∀ a, st.vmin = some a →
        (surface_handler spec cm geoB xyB st zs xs ys).2.vmin = some a) ∧
    (∀ a, st.vmax = some a →
        (surface_handler spec cm geoB xyB st zs xs ys).2.vmax = some a) ∧
    respStatus (surface_handler spec cm geoB xyB st zs xs ys).1 = some 200 := by
  unfold surface_handler
  rw [hparse]
  refine ⟨?_, ?_, ?_, ?_, rfl⟩
  · intro h
    simp [h]
  · intro h
    simp [h]
  · intro a h
    simp [h]
  · intro a h
    simp [h]

/-- Witness for C7: a concrete request on a state with unset bounds; the
derived bounds are stored and the response status is 200. -/
theorem surface_vminmax_witness :
    ((⟨none, none, []⟩ : SurfaceState).vmin = none →
        (surface_handler ⟨⟨[0, 1], [1, 0], [[5, 5], [5, 5]]⟩, 0, 1, 0, 1, 1, 1⟩
            (fun t => (t, t, t)) (fun _ _ _ => ⟨0, 0, 1, 1⟩) (fun _ _ _ => ⟨0, 0, 1, 1⟩)
            ⟨none, none, []⟩ [Char.ofNat 48] [Char.ofNat 48]
            [Char.ofNat 48, Char.ofNat 46, Char.ofNat 112, Char.ofNat 110,
              Char.ofNat 103]).2.vmin
          = some (gridMin (⟨[0, 1], [1, 0], [[5, 5], [5, 5]]⟩ : SubGrid))) ∧
    ((⟨none, none, []⟩ : SurfaceState).vmax = none →
        (surface_handler ⟨⟨[0, 1], [1, 0], [[5, 5], [5, 5]]⟩, 0, 1, 0, 1, 1, 1⟩
            (fun t => (t, t, t)) (fun _ _ _ => ⟨0, 0, 1, 1⟩) (fun _ _ _ => ⟨0, 0, 1, 1⟩)
            ⟨none, none, []⟩ [Char.ofNat 48] [Char.ofNat 48]
            [Char.ofNat 48, Char.ofNat 46, Char.ofNat 112, Char.ofNat 110,
              Char.ofNat 103]).2.vmax
          = some (gridMax (⟨[0, 1], [1, 0], [[5, 5], [5, 5]]⟩ : SubGrid))) ∧
    (∀ a, (⟨none, none, []⟩ : SurfaceState).vmin = some a →
        (surface_handler ⟨⟨[0, 1], [1, 0], [[5, 5], [5, 5]]⟩, 0, 1, 0, 1, 1, 1⟩
            (fun t => (t, t, t)) (fun _ _ _ => ⟨0, 0, 1, 1⟩) (fun _ _ _ => ⟨0, 0, 1, 1⟩)
            ⟨none, none, []⟩ [Char.ofNat 48] [Char.ofNat 48]
            [Char.ofNat 48, Char.ofNat 46, Char.ofNat 112, Char.ofNat 110,
              Char.ofNat 103]).2.vmin = some a) ∧
    (∀ a, (⟨none, none, []⟩ : SurfaceState).vmax = some a →
        (surface_handler ⟨⟨[0, 1], [1, 0], [[5, 5], [5, 5]]⟩, 0, 1, 0, 1, 1, 1⟩
            (fun t => (t, t, t)) (fun _ _ _ => ⟨0, 0, 1, 1⟩) (fun _ _ _ => ⟨0, 0, 1, 1⟩)
            ⟨none, none, []⟩ [Char.ofNat 48] [Char.ofNat 48]
            [Char.ofNat 48, Char.ofNat 46, Char.ofNat 112, Char.ofNat 110,
              Char.ofNat 103]).2.vmax = some a) ∧
    respStatus (surface_handler ⟨⟨[0, 1], [1, 0], [[5, 5], [5, 5]]⟩, 0, 1, 0, 1, 1, 1⟩
        (fun t => (t, t, t)) (fun _ _ _ => ⟨0, 0, 1, 1⟩) (fun _ _ _ => ⟨0, 0, 1, 1⟩)
        ⟨none, none, []⟩ [Char.ofNat 48] [Char.ofNat 48]
        [Char.ofNat 48, Char.ofNat 46, Char.ofNat 112, Char.ofNat 110,
          Char.ofNat 103]).1 = some 200 :=
  surface_vminmax ⟨⟨[0, 1], [1, 0], [[5, 5], [5, 5]]⟩, 0, 1, 0, 1, 1, 1⟩
    (fun t => (t, t, t)) (fun _ _ _ => ⟨0, 0, 1, 1⟩) (fun _ _ _ => ⟨0, 0, 1, 1⟩)
    ⟨none, none, []⟩ [Char.ofNat 48] [Char.ofNat 48]
    [Char.ofNat 48, Char.ofNat 46, Char.ofNat 112, Char.ofNat 110, Char.ofNat 103]
    0 0 0 rfl

/-- Counterexample for C7 as stated: on a constant-elevation grid the derived
`vmin` and `vmax` coincide, yet the surface encoding does not fail with any
error — the handler still answers with a status-200 image. -/
theorem surface_degenerate_counterexample :
    gridMin (⟨[0, 1], [1, 0], [[5, 5], [5, 5]]⟩ : SubGrid)
        = gridMax (⟨[0, 1], [1, 0], [[5, 5], [5, 5]]⟩ : SubGrid) ∧
    (surface_handler ⟨⟨[0, 1], [1, 0], [[5, 5], [5, 5]]⟩, 0, 1, 0, 1, 1, 1⟩
        (fun t => (t, t, t)) (fun _ _ _ => ⟨0, 0, 1, 1⟩) (fun _ _ _ => ⟨0, 0, 1, 1⟩)
        ⟨some 5, some 5, []⟩ [Char.ofNat 48] [Char.ofNat 48]
        [Char.ofNat 48, Char.ofNat 46, Char.ofNat 112, Char.ofNat 110,
          Char.ofNat 103]).2.vmin
      = (surface_handler ⟨⟨[0, 1], [1, 0], [[5, 5], [5, 5]]⟩, 0, 1, 0, 1, 1, 1⟩
        (fun t => (t, t, t)) (fun _ _ _ => ⟨0, 0, 1, 1⟩) (fun _ _ _ => ⟨0, 0, 1, 1⟩)
        ⟨some 5, some 5, []⟩ [Char.ofNat 48] [Char.ofNat 48]
        [Char.ofNat 48, Char.ofNat 46, Char.ofNat 112, Char.ofNat 110,
          Char.ofNat 103]).2.vmax ∧
    respStatus (surface_handler ⟨⟨[0, 1], [1, 0], [[5, 5], [5, 5]]⟩, 0, 1, 0, 1, 1, 1⟩
        (fun t => (t, t, t)) (fun _ _ _ => ⟨0, 0, 1, 1⟩) (fun _ _ _ => ⟨0, 0, 1, 1⟩)
        ⟨some 5, some 5, []⟩ [Char.ofNat 48] [Char.ofNat 48]
        [Char.ofNat 48, Char.ofNat 46, Char.ofNat 112, Char.ofNat 110,
          Char.ofNat 103]).1 = some 200 := by
  refine ⟨?_, rfl, rfl⟩
  norm_num [gridMin, gridMax, List.min?, List.max?]

end Xtrude
